import Mathlib

/-!
Verification of the follow-up question generation pipeline of the
AGENT-AI-FUND repository.  Python strings are embedded as lists of
characters; Python string methods used by the code are embedded as the
corresponding list functions below.  Machine integers do not overflow in
any of the embedded code paths (all arithmetic stays far below 2^62), so
plain Nat and Int are used.
-/

/-- Embedding of a Python string as a list of characters. -/
abbrev PyStr := List Char

/-- Characters stripped by the Python method str.strip with no argument
(whitespace: space, tab, newline, carriage return, vertical tab, form feed). -/
def pyIsSpace (c : Char) : Bool :=
  c == ' ' || c == '\t' || c == '\n' || c == '\r' || c == '\x0b' || c == '\x0c'

/-- Embedding of str.lstrip. -/
def pyLstrip (s : PyStr) : PyStr := s.dropWhile pyIsSpace

/-- Embedding of str.rstrip. -/
def pyRstrip (s : PyStr) : PyStr := (s.reverse.dropWhile pyIsSpace).reverse

/-- Embedding of str.strip with no argument. -/
def pyStrip (s : PyStr) : PyStr := pyRstrip (pyLstrip s)

/-- Embedding of str.strip with an explicit character set: the given
characters are removed from both ends. -/
def pyStripChars (cs : List Char) (s : PyStr) : PyStr :=
  ((s.dropWhile (fun c => cs.contains c)).reverse.dropWhile
    (fun c => cs.contains c)).reverse

/-- Embedding of str.lower (ASCII case mapping, which agrees with Python
on all characters appearing in this development). -/
def pyLower (s : PyStr) : PyStr := s.map Char.toLower

/-- Embedding of str.startswith. -/
def pyStartswith (pre s : PyStr) : Bool := pre.isPrefixOf s

/-- Embedding of str.endswith. -/
def pyEndswith (suf s : PyStr) : Bool := suf.isSuffixOf s

/-- Embedding of str.split on a single separator character. -/
def pySplit (sep : Char) : PyStr → List PyStr
  | [] => [[]]
  | c :: rest =>
    let r := pySplit sep rest
    if c == sep then [] :: r
    else
      match r with
      | [] => [[c]]
      | h :: t => (c :: h) :: t

/-!
## src/FollowUpAgent/followUpAgent.py — prompt budget

FollowUpAgent there sets MAX_PROMPT_CHARS = 10000 and builds the prompt
from a static section (rendered from constants imported from the
prompt_repository package, which is not part of the repository sources,
so its exact text is left as a parameter), a truncated history, and a
query/instructions section.
-/

/-- FollowUpAgent.MAX_PROMPT_CHARS from src/FollowUpAgent/followUpAgent.py. -/
def MAX_PROMPT_CHARS : Nat := 10000

/-- FollowUpAgent.MAX_HISTORY_CHARS from src/FollowUpAgent/followUpAgent.py
(declared as a soft limit; unused by the truncation logic). -/
def MAX_HISTORY_CHARS : Nat := 2000

/-- Embedding of FollowUpAgent._truncate_history_to_fit_prompt
(src/FollowUpAgent/followUpAgent.py lines 60-69):
available = MAX_PROMPT_CHARS - len(static_prompt); if available <= 0
return the empty string; if len(history) > available return the trailing
available characters (the Python slice history[-available:]); otherwise
return history unchanged. -/
def truncate_history_to_fit_prompt (static_prompt history : PyStr) : PyStr :=
  let available : Int := (MAX_PROMPT_CHARS : Int) - (static_prompt.length : Int)
  if available ≤ 0 then []
  else if available < (history.length : Int) then
    history.drop (history.length - available.toNat)
  else history

/-- Embedding of FollowUpAgent._build_followup_prompt
(src/FollowUpAgent/followUpAgent.py lines 71-115).  The static section
and the query/instructions section are parameters because they render
constants from the missing prompt_repository package together with the
request query; the function truncates the history against the static
section, concatenates, and applies the final hard cut
prompt[:MAX_PROMPT_CHARS]. -/
def build_followup_prompt (static_prompt query_section history : PyStr) : PyStr :=
  let truncated_history := truncate_history_to_fit_prompt static_prompt history
  let prompt := static_prompt ++ truncated_history ++ query_section
  if MAX_PROMPT_CHARS < prompt.length then prompt.take MAX_PROMPT_CHARS else prompt

/-!
## src/FollowUpAgent/followUpAgent.py — response parsing and agent execution

FollowUpResponseParser.parse strips the response, checks a sentinel
phrase, then tries JSON decoding, and on a decode error falls back to a
line-oriented extraction.  json.loads is a Python standard-library call;
it is embedded by passing its outcome on the stripped response as an
argument: Except.error () models a raised json decode exception
(caught by the except block), Except.ok models a decoded value.
-/

/-- Embedding of a decoded Python JSON value (result of json.loads). -/
inductive PyJson where
  | str (s : PyStr)
  | num (n : Int)
  | boolean (b : Bool)
  | null
  | list (items : List PyJson)
  | dict (fields : List (PyStr × PyJson))

/-- Dictionary lookup on a decoded JSON object, embedding the Python
tests key in data / data[key] (keys in a Python dict are unique). -/
def dictGet (fields : List (PyStr × PyJson)) (key : PyStr) : Option PyJson :=
  match fields with
  | [] => none
  | (k, v) :: rest => if k = key then some v else dictGet rest key

/-- Embedding of the comprehension filter
isinstance(q, str) and q.strip() used by FollowUpResponseParser.parse:
keeps a JSON value only when it is a string that is non-blank after
stripping. -/
def jsonStrNonBlank : PyJson → Option PyStr
  | PyJson.str s => if (pyStrip s).isEmpty then none else some s
  | _ => none

/-- The sentinel phrase tested by FollowUpResponseParser.parse. -/
def noFollowUpSentinel : PyStr := "no follow-up needed".toList

/-- The key looked up in a decoded JSON object by
FollowUpResponseParser.parse. -/
def questionsKey : PyStr := "questions".toList

/-- Result of FollowUpResponseParser.parse: the questions list and the
no_follow_up_needed flag of the returned Python dict. -/
structure ParseResult where
  questions : List PyStr
  no_follow_up_needed : Bool
deriving DecidableEq

namespace FollowUpResponseParser

/-- Embedding of FollowUpResponseParser.parse
(src/FollowUpAgent/followUpAgent.py lines 19-45).  The input response is
stripped; if its lower-cased form starts with the sentinel the parser
returns no questions with the flag set.  Otherwise jsonOutcome is the
outcome of json.loads on the stripped response: a decoded object with a
questions list or a decoded list yields the contained non-blank strings;
any other decoded value falls through to the final return (no questions,
flag set); a decode exception triggers the line-oriented fallback, which
keeps stripped lines (leading and trailing characters from the set
dash/space removed) ending in a question mark.  Line splitting is
embedded for newline-separated text. -/
def parse (jsonOutcome : Except Unit PyJson) (response : PyStr) : ParseResult :=
  if pyStartswith noFollowUpSentinel (pyLower (pyStrip response)) then
    { questions := [], no_follow_up_needed := true }
  else
    match jsonOutcome with
    | Except.ok (PyJson.dict fields) =>
      match dictGet fields questionsKey with
      | some (PyJson.list items) =>
        { questions := items.filterMap jsonStrNonBlank, no_follow_up_needed := false }
      | _ => { questions := [], no_follow_up_needed := true }
    | Except.ok (PyJson.list items) =>
      { questions := items.filterMap jsonStrNonBlank, no_follow_up_needed := false }
    | Except.ok _ => { questions := [], no_follow_up_needed := true }
    | Except.error _ =>
      let lines := ((pySplit '\n' (pyStrip response)).filter
        (fun l => ¬ (pyStrip l).isEmpty)).map (pyStripChars ['-', ' '])
      let questions := lines.filter (fun l => pyEndswith ['?'] l)
      if ¬ questions.isEmpty then
        { questions := questions, no_follow_up_needed := false }
      else
        { questions := [], no_follow_up_needed := true }

end FollowUpResponseParser

/-- Embedding of the serialization json.dumps applied to a list of
strings (standard library): bracketed, comma-space separated, each
string quoted with quote and backslash characters escaped (the escapes
of control characters are not modelled; no embedded theorem relies on
them). -/
def jsonEscapeChar (c : Char) : PyStr :=
  if c = '"' then ['\\', '"']
  else if c = '\\' then ['\\', '\\']
  else [c]

/-- Comma-space joining used by dumpsStringList. -/
def joinSep (sep : PyStr) : List PyStr → PyStr
  | [] => []
  | [x] => x
  | x :: y :: xs => x ++ sep ++ joinSep sep (y :: xs)

/-- Serialization of a list of strings as a JSON array (json.dumps). -/
def dumpsStringList (qs : List PyStr) : PyStr :=
  '[' :: (joinSep ", ".toList
    (qs.map (fun q => '"' :: (q.map jsonEscapeChar).flatten ++ ['"']))) ++ [']']

/-- Fields written into state.agent_response by
FollowUpAgent.execute_agent. -/
structure AgentResponseUpdate where
  follow_up_questions : List PyStr
  follow_up_needed : Bool
  message : PyStr
deriving DecidableEq

/-- The apology message set by the except branch of
FollowUpAgent.execute_agent (the apostrophe is spelled via its code
point). -/
def errorApologyMessage : PyStr :=
  "Sorry, I couldn".toList ++ [Char.ofNat 39]
    ++ "t generate follow-up questions at this time.".toList

/-- Embedding of FollowUpAgent.execute_agent
(src/FollowUpAgent/followUpAgent.py lines 117-142).  The outcome
argument embeds the try block up to the backend call: Except.error is an
exception raised while building the prompt or calling the backend
(caught by the except branch), Except.ok carries the backend response
text together with the outcome of json.loads on its stripped form. -/
def execute_agent (outcome : Except PyStr (Except Unit PyJson × PyStr)) :
    AgentResponseUpdate :=
  match outcome with
  | Except.error _ =>
    { follow_up_questions := [], follow_up_needed := false,
      message := errorApologyMessage }
  | Except.ok (jsonOutcome, followup_response) =>
    let parsed := FollowUpResponseParser.parse jsonOutcome followup_response
    if parsed.no_follow_up_needed then
      { follow_up_questions := [], follow_up_needed := false,
        message := "No follow-up needed.".toList }
    else
      { follow_up_questions := parsed.questions, follow_up_needed := true,
        message := "Follow-up questions generated.".toList }

/-!
## src/Follow Up agent/follow_Up_Agent.py and follow_up_agent_prompts.py

The strict batch validator, the template question generator, the LLM
fallback and the generation pipeline around them.
-/

/-- Embedding of FollowUpAgent._validate_follow_up_questions
(src/Follow Up agent/follow_Up_Agent.py lines 222-239): an empty list is
rejected; otherwise every question is checked against all three criteria
lambdas (length strictly greater than 10, ends with a question mark, and
the total question count is at most 3). -/
def validate_follow_up_questions (questions : List PyStr) : Bool :=
  if questions.isEmpty then false
  else questions.all (fun q =>
    decide (10 < q.length) && pyEndswith ['?'] q && decide (questions.length ≤ 3))

/-- A dict produced or consumed by the generation pipeline of
src/Follow Up agent/follow_Up_Agent.py: the follow_up_questions list,
the reasoning text and the confidence score (an exact decimal in the
source, embedded as a rational). -/
structure FollowUpGenResult where
  follow_up_questions : List PyStr
  reasoning : PyStr
  confidence_score : ℚ
deriving DecidableEq

/-- Embedding of generate_follow_up_questions
(src/Follow Up agent/follow_up_agent_prompts.py lines 103-136).  The only
part of the context the function reads is whether
context.get with key previous_messages and default empty list is falsy;
that truth value is the argument.  Every operation in its try block is
total, so its except branch is unreachable. -/
def generate_follow_up_questions (previous_messages_empty : Bool) : FollowUpGenResult :=
  if previous_messages_empty then
    { follow_up_questions :=
        ["Could you provide more context about your current situation?".toList],
      reasoning := "Initial conversation requires more context".toList,
      confidence_score := 1/2 }
  else
    { follow_up_questions := [],
      reasoning := "No specific follow-up questions generated".toList,
      confidence_score := 1/2 }

/-- The question extraction of
FollowUpAgent._llm_generate_follow_up_questions: stripped lines of the
response that are non-empty and end with a question mark, limited to the
first three. -/
def llmResponseQuestions (response : PyStr) : List PyStr :=
  (((pySplit '\n' response).map pyStrip).filter
    (fun q => !q.isEmpty && pyEndswith ['?'] q)).take 3

/-- Embedding of FollowUpAgent._llm_generate_follow_up_questions
(src/Follow Up agent/follow_Up_Agent.py lines 180-218).  The argument is
the outcome of serializing the context and calling
llm_service.generate_response inside the try block: an exception whose
message is the error payload (handled by the except branch) or the
response text. -/
def llm_generate_follow_up_questions (llmOutcome : Except PyStr PyStr) :
    FollowUpGenResult :=
  match llmOutcome with
  | Except.ok response =>
    { follow_up_questions := llmResponseQuestions response,
      reasoning := "LLM-generated follow-up questions".toList,
      confidence_score := 7/10 }
  | Except.error e =>
    { follow_up_questions := [],
      reasoning := "LLM generation failed: ".toList ++ e,
      confidence_score := 0 }

/-- Embedding of FollowUpAgent._generate_follow_up_questions
(src/Follow Up agent/follow_Up_Agent.py lines 155-179): the template
generator runs first; when the strict validator rejects its question list
the LLM fallback result is returned instead, unvalidated.  The outer
except branch (empty result, confidence 0.0) is unreachable because every
embedded operation of the try block is total. -/
def generate_follow_up_questions_pipeline (previous_messages_empty : Bool)
    (llmOutcome : Except PyStr PyStr) : FollowUpGenResult :=
  let follow_up_result := generate_follow_up_questions previous_messages_empty
  if validate_follow_up_questions follow_up_result.follow_up_questions then
    follow_up_result
  else
    llm_generate_follow_up_questions llmOutcome

/-!
## src/FollowUpAgent/a Follow_up_Agent_implementation.py — deduplication
and the agent state post-processor.
-/

/-- A conversation-history entry as read by
LLMBasedFollowUpGenerator._filter_duplicate_questions: only the presence
and value of its follow_up_questions key matter (none embeds an entry
without that key). -/
structure HistEntry where
  follow_up_questions : Option (List PyStr)

/-- The previous_questions accumulation of
_filter_duplicate_questions: flatten the follow_up_questions of every
history entry that carries them, in order. -/
def previousQuestionsOf (conversation_history : List HistEntry) : List PyStr :=
  conversation_history.foldl (fun acc e => acc ++ e.follow_up_questions.getD []) []

/-- Embedding of LLMBasedFollowUpGenerator._filter_duplicate_questions
(src/FollowUpAgent/a Follow_up_Agent_implementation.py lines 117-141):
keep each new question unless its lower-cased form equals the lower-cased
form of some previously asked question (no trimming is applied). -/
def filter_duplicate_questions (new_questions : List PyStr)
    (conversation_history : List HistEntry) : List PyStr :=
  new_questions.filter (fun question =>
    !((previousQuestionsOf conversation_history).any
        (fun q => pyLower q == pyLower question)))

/-- A value stored in the agent state dict of FollowUpAgent.process. -/
inductive PyVal where
  | str (s : PyStr)
  | strList (qs : List PyStr)
  | dictV (fields : List (PyStr × PyVal))

/-- The agent state of FollowUpAgent.process, embedded as an association
list with the insertion order of a Python dict. -/
abbrev AgentStateDict := List (PyStr × PyVal)

/-- Embedding of the Python membership test key in agent_state combined
with the subscript read. -/
def lookupKey (st : AgentStateDict) (k : PyStr) : Option PyVal :=
  match st with
  | [] => none
  | (k0, v0) :: rest => if k0 = k then some v0 else lookupKey rest k

/-- Embedding of the Python dict assignment agent_state[k] = v: replace
the value in place when the key exists, otherwise append the pair. -/
def setKey (st : AgentStateDict) (k : PyStr) (v : PyVal) : AgentStateDict :=
  match st with
  | [] => [(k, v)]
  | (k0, v0) :: rest =>
    if k0 = k then (k0, v) :: rest else (k0, v0) :: setKey rest k v

/-- The key primary_agent_response checked by FollowUpAgent.process. -/
def primaryAgentResponseKey : PyStr := "primary_agent_response".toList

/-- The key follow_up_questions written by FollowUpAgent.process. -/
def followUpQuestionsKey : PyStr := "follow_up_questions".toList

/-- Embedding of FollowUpAgent.process
(src/FollowUpAgent/a Follow_up_Agent_implementation.py lines 236-265).
The configured generator strategy is a parameter (a function from the
agent state, the primary response and max_questions to a question list),
so that the theorem quantifies over every strategy.  When the
primary_agent_response key is absent the state is returned unchanged;
otherwise the strategy runs and its questions are stored under
follow_up_questions. -/
def FollowUpAgent_process
    (generator_strategy : AgentStateDict → PyVal → Nat → List PyStr)
    (max_questions : Nat) (agent_state : AgentStateDict) : AgentStateDict :=
  match lookupKey agent_state primaryAgentResponseKey with
  | none => agent_state
  | some original_response =>
    let follow_up_questions :=
      generator_strategy agent_state original_response max_questions
    setKey agent_state followUpQuestionsKey (PyVal.strList follow_up_questions)

/-!
## src/FollowUpAgent/b Follow_up_agent_Prompt.py — parse_follow_up_response

The second response parser: a JSON attempt guarded by an except clause
that catches only json.JSONDecodeError, then two regex fallback patterns
and a cleanup pass.  The regular expressions are embedded as the list
scans described on each definition.
-/

/-- Exceptions distinguished around the json.loads call of
parse_follow_up_response: json.loads raises json.JSONDecodeError on
malformed string input (the only exception its contract raises there),
and that is also the only exception the except clause catches; any other
exception would propagate. -/
inductive PyExc where
  | jsonDecodeError
  | other
deriving DecidableEq

/-- Embedding of re.search with the pattern
opening-bracket, any characters, closing-bracket (greedy): the span from
the first opening bracket followed by some later closing bracket through
the last closing bracket of the text. -/
def findJsonSpan : PyStr → Option PyStr
  | [] => none
  | c :: rest =>
    if c == '[' && rest.contains ']' then
      some (c :: (rest.reverse.dropWhile (fun d => d != ']')).reverse)
    else findJsonSpan rest

/-- The quote characters stripped by the cleanup step of
parse_follow_up_response (double quote and single quote; the single
quote is spelled via its code point). -/
def quoteChars : List Char := ['"', Char.ofNat 39]

/-- The single-character enumeration markers of the numbered pattern
(double quote, single quote, star, dash). -/
def markerChars : List Char := ['"', Char.ofNat 39, '*', '-']

/-- Embedding of one anchored attempt of the numbered pattern on one
line: a leading marker (one or more digits followed by a dot or closing
parenthesis, or a single quote, star or dash character), optional
whitespace, then a lazy capture up to the first question mark of the
line.  Captures spanning a newline inside the whitespace of the marker
are not embedded; no theorem relies on them. -/
def numberedLineCapture (line : PyStr) : Option PyStr :=
  let ds := line.takeWhile Char.isDigit
  let afterMarker : Option PyStr :=
    if ds.isEmpty then
      match line with
      | c :: rest => if markerChars.contains c then some rest else none
      | [] => none
    else
      match line.drop ds.length with
      | c :: rest => if c == '.' || c == ')' then some rest else none
      | [] => none
  match afterMarker with
  | none => none
  | some rest =>
    let body := rest.dropWhile pyIsSpace
    if body.contains '?' then
      some (body.takeWhile (fun d => d != '?') ++ ['?'])
    else none

/-- Terminator characters of the sentence pattern. -/
def sentenceTerm (d : Char) : Bool := d == '.' || d == '!' || d == '?'

/-- Embedding of re.findall with the sentence pattern (an upper-case
letter, a lazy run of characters other than sentence terminators, a
question mark): scan left to right; at an upper-case letter, if the
first terminator ahead is a question mark, capture through it and
continue after the capture (matches never overlap), otherwise advance
one character. -/
def sentenceSpans (s : PyStr) : List PyStr :=
  match s with
  | [] => []
  | c :: rest =>
    if c.isUpper then
      match h : rest.dropWhile (fun d => !sentenceTerm d) with
      | '?' :: after =>
        (c :: rest.takeWhile (fun d => !sentenceTerm d) ++ ['?']) :: sentenceSpans after
      | _ => sentenceSpans rest
    else sentenceSpans rest
termination_by s.length
decreasing_by
  · have h1 : ('?' :: after).length ≤ rest.length := by
      rw [← h]; exact (List.dropWhile_sublist _).length_le
    simp at h1 ⊢
    omega
  · simp
  · simp

/-- The cleanup pass of parse_follow_up_response: strip surrounding
quote characters then whitespace, drop empties, and keep the first
occurrence of each cleaned question. -/
def cleanupQuestions (qs : List PyStr) : List PyStr :=
  qs.foldl (fun clean_questions q =>
    let cleaned := pyStrip (pyStripChars quoteChars q)
    if !cleaned.isEmpty && !clean_questions.contains cleaned then
      clean_questions ++ [cleaned]
    else clean_questions) []

/-- The regex fallback of parse_follow_up_response: the numbered pattern
per line; if it yields nothing, the sentence pattern over the whole
text; then the cleanup pass. -/
def regexFallbackQuestions (llm_response : PyStr) : List PyStr :=
  let pattern1 := (pySplit '\n' llm_response).filterMap numberedLineCapture
  let questions := if pattern1.isEmpty then sentenceSpans llm_response else pattern1
  cleanupQuestions questions

/-- Embedding of parse_follow_up_response
(src/FollowUpAgent/b Follow_up_agent_Prompt.py lines 108-153).  The
loads argument is the json.loads call; the try block attempts it on the
bracketed span when one exists, returns the decoded list when it is a
list of strings, falls through to the regex fallback on a decode
exception or a wrong shape, and would propagate any other exception. -/
def parse_follow_up_response (loads : PyStr → Except PyExc PyJson)
    (llm_response : PyStr) : Except PyExc (List PyStr) :=
  match findJsonSpan llm_response with
  | some span =>
    match loads span with
    | Except.error PyExc.jsonDecodeError =>
      Except.ok (regexFallbackQuestions llm_response)
    | Except.error e => Except.error e
    | Except.ok (PyJson.list items) =>
      if items.all (fun q => match q with | PyJson.str _ => true | _ => false) then
        Except.ok (items.filterMap
          (fun q => match q with | PyJson.str s => some s | _ => none))
      else Except.ok (regexFallbackQuestions llm_response)
    | Except.ok _ => Except.ok (regexFallbackQuestions llm_response)
  | none => Except.ok (regexFallbackQuestions llm_response)

/-- Claim C1: for every static section, query section and input history
string, the prompt returned by FollowUpAgent._build_followup_prompt has
length at most MAX_PROMPT_CHARS = 10000. -/
theorem build_followup_prompt_le_max (static_prompt query_section history : PyStr) :
    (build_followup_prompt static_prompt query_section history).length ≤ MAX_PROMPT_CHARS := by
  unfold build_followup_prompt
  by_cases h : MAX_PROMPT_CHARS <
      (static_prompt ++ truncate_history_to_fit_prompt static_prompt history
        ++ query_section).length
  · simp only [h, if_true, List.length_take]
    omega
  · simp only [h, if_false]
    omega

/-- Claim C2: when the available budget (MAX_PROMPT_CHARS minus the
static section length) is at most zero the history is entirely dropped,
and when the history is longer than a positive available budget the
retained portion is exactly the trailing available-character suffix of
the history (its length equals the available budget and it is a suffix
of the history), never a leading prefix. -/
theorem truncate_history_trailing_suffix (static_prompt history : PyStr) :
    ((MAX_PROMPT_CHARS : Int) - (static_prompt.length : Int) ≤ 0 →
      truncate_history_to_fit_prompt static_prompt history = []) ∧
    (0 < (MAX_PROMPT_CHARS : Int) - (static_prompt.length : Int) →
      (MAX_PROMPT_CHARS : Int) - (static_prompt.length : Int) < (history.length : Int) →
      truncate_history_to_fit_prompt static_prompt history
          = history.drop (history.length
              - ((MAX_PROMPT_CHARS : Int) - (static_prompt.length : Int)).toNat) ∧
        (truncate_history_to_fit_prompt static_prompt history).length
          = ((MAX_PROMPT_CHARS : Int) - (static_prompt.length : Int)).toNat ∧
        (truncate_history_to_fit_prompt static_prompt history) <:+ history) := by
  constructor
  · intro h
    unfold truncate_history_to_fit_prompt
    simp only [h, if_true]
  · intro hpos hlong
    have hle : ¬ ((MAX_PROMPT_CHARS : Int) - (static_prompt.length : Int) ≤ 0) := by omega
    unfold truncate_history_to_fit_prompt
    rw [if_neg hle, if_pos hlong]
    refine ⟨rfl, ?_, List.drop_suffix _ _⟩
    rw [List.length_drop]
    omega

/-- Witness for claim C2 at a concrete input: a static section of 9990
characters leaves an available budget of 10, so a 15-character history
keeps exactly its last 10 characters. -/
theorem truncate_history_trailing_suffix_witness :
    truncate_history_to_fit_prompt (List.replicate 9990 'a') "abcdefghijklmno".toList
      = "fghijklmno".toList := by
  have h := (truncate_history_trailing_suffix (List.replicate 9990 'a')
    "abcdefghijklmno".toList).2
  rw [List.length_replicate] at h
  have h2 := h (by decide) (by decide)
  rw [h2.1]
  decide

/-- Helper: dropping a predicate from the front of a list with a final
element not satisfying the predicate keeps that final element. -/
theorem dropWhile_append_single {p : Char → Bool} (xs : List Char) (c : Char)
    (hc : p c = false) :
    (xs ++ [c]).dropWhile p = xs.dropWhile p ++ [c] := by
  induction xs with
  | nil => simp [List.dropWhile, hc]
  | cons x xs ih =>
    by_cases hx : p x
    · simp [List.dropWhile, hx, ih]
    · simp [List.dropWhile, hx]

/-- Helper: stripping whitespace from a string whose first character is
not whitespace keeps that first character in front. -/
theorem pyStrip_cons_of_not_space (c : Char) (t : PyStr) (hc : pyIsSpace c = false) :
    pyStrip (c :: t) = c :: (t.reverse.dropWhile pyIsSpace).reverse := by
  unfold pyStrip pyLstrip pyRstrip
  rw [List.dropWhile_cons]
  simp only [hc, Bool.false_eq_true, if_false]
  rw [show (c :: t).reverse = t.reverse ++ [c] by simp]
  rw [dropWhile_append_single t.reverse c hc]
  simp

/-- Helper: a stripped, lower-cased string whose first non-stripped
character does not lower-case to the letter n never starts with the
no-follow-up sentinel. -/
theorem sentinel_false_of_head (c : Char) (t : PyStr) (hc : pyIsSpace c = false)
    (hn : Char.toLower c ≠ 'n') :
    pyStartswith noFollowUpSentinel (pyLower (pyStrip (c :: t))) = false := by
  rw [pyStrip_cons_of_not_space c t hc]
  unfold pyLower pyStartswith noFollowUpSentinel
  rw [show "no follow-up needed".toList = 'n' :: "o follow-up needed".toList from rfl]
  simp only [List.map_cons, List.isPrefixOf]
  simp [hn, Ne.symm hn]

/-- Helper: a serialized JSON array never starts with the sentinel. -/
theorem sentinel_false_dumps (qs : List PyStr) :
    pyStartswith noFollowUpSentinel (pyLower (pyStrip (dumpsStringList qs))) = false := by
  unfold dumpsStringList
  exact sentinel_false_of_head '[' _ (by decide) (by decide)

/-- Helper: the parse comprehension keeps every string that is non-blank
after stripping, in order. -/
theorem filterMap_jsonStrNonBlank (qs : List PyStr)
    (h : ∀ q ∈ qs, (pyStrip q).isEmpty = false) :
    (qs.map PyJson.str).filterMap jsonStrNonBlank = qs := by
  induction qs with
  | nil => rfl
  | cons q qs ih =>
    have hq := h q (List.mem_cons_self _ _)
    simp only [List.map_cons, List.filterMap_cons, jsonStrNonBlank, hq,
      Bool.false_eq_true, if_false]
    rw [ih fun x hx => h x (List.mem_cons_of_mem _ hx)]

/-- Claim C4: whenever the trimmed, lower-cased backend text begins with
the sentinel phrase no follow-up needed, FollowUpResponseParser.parse
returns an empty question list with no_follow_up_needed set, regardless
of the JSON decode outcome (so no further extraction strategy can
influence the result). -/
theorem parse_no_follow_up_sentinel (jsonOutcome : Except Unit PyJson) (response : PyStr)
    (h : pyStartswith noFollowUpSentinel (pyLower (pyStrip response)) = true) :
    FollowUpResponseParser.parse jsonOutcome response
      = { questions := [], no_follow_up_needed := true } := by
  unfold FollowUpResponseParser.parse
  rw [if_pos h]

/-- Witness for claim C4: the literal backend reply together with a
decode exception outcome. -/
theorem parse_no_follow_up_sentinel_witness :
    FollowUpResponseParser.parse (Except.error ()) "No follow-up needed.".toList
      = { questions := [], no_follow_up_needed := true } :=
  parse_no_follow_up_sentinel (Except.error ()) "No follow-up needed.".toList (by decide)

/-- Counterexample to claim C7: the parser imposes no bound on the
number of questions, so a decoded JSON array of four valid questions
produces a result with four questions, violating the claimed invariant
len(questions) <= 3. -/
theorem parse_exceeds_max_questions :
    3 < (FollowUpResponseParser.parse
      (Except.ok (PyJson.list
        [PyJson.str "What is your monthly income?".toList,
         PyJson.str "What is your target corpus?".toList,
         PyJson.str "What is your risk appetite?".toList,
         PyJson.str "When do you need the money?".toList]))
      (dumpsStringList
        ["What is your monthly income?".toList,
         "What is your target corpus?".toList,
         "What is your risk appetite?".toList,
         "When do you need the money?".toList])).questions.length := by
  decide

/-- Claim C7 (amended): whenever a parse result has no_follow_up_needed
set, its question list is empty, and whenever execute_agent leaves
follow_up_needed false the follow_up_questions field is empty; the
question count itself is not bounded by max_questions. -/
theorem no_follow_up_needed_implies_empty (jsonOutcome : Except Unit PyJson)
    (response : PyStr) (outcome : Except PyStr (Except Unit PyJson × PyStr)) :
    ((FollowUpResponseParser.parse jsonOutcome response).no_follow_up_needed = true →
      (FollowUpResponseParser.parse jsonOutcome response).questions = []) ∧
    ((execute_agent outcome).follow_up_needed = false →
      (execute_agent outcome).follow_up_questions = []) := by
  constructor
  · unfold FollowUpResponseParser.parse
    split
    · intro _; rfl
    · split
      · split
        · intro h; exact (Bool.false_ne_true h).elim
        · intro _; rfl
      · intro h; exact (Bool.false_ne_true h).elim
      · intro _; rfl
      · dsimp only
        split
        · intro h; exact (Bool.false_ne_true h).elim
        · intro _; rfl
  · unfold execute_agent
    split
    · intro _; rfl
    · dsimp only
      split
      · intro _; rfl
      · intro h; simp at h

/-- Witness for claim C7 (amended): the sentinel reply and a raised
backend exception. -/
theorem no_follow_up_needed_implies_empty_witness :
    (FollowUpResponseParser.parse (Except.error ()) "No follow-up needed.".toList).questions
        = [] ∧
    (execute_agent (Except.error "boom".toList)).follow_up_questions = [] := by
  have h := no_follow_up_needed_implies_empty (Except.error ())
    "No follow-up needed.".toList (Except.error "boom".toList)
  exact ⟨h.1 (by decide), h.2 (by decide)⟩

/-- Counterexample to claim C8: a list holding one non-empty string (a
single space) serialized as a JSON array does not round-trip: the parser
drops the blank string, returning zero questions instead of one. -/
theorem parse_roundtrip_blank_counterexample :
    (" ".toList ≠ ([] : PyStr)) ∧
    (FollowUpResponseParser.parse (Except.ok (PyJson.list [PyJson.str " ".toList]))
      (dumpsStringList [" ".toList])).questions = [] := by
  decide

/-- Claim C8 (amended): for every list of strings that are non-blank
after stripping, feeding the parser the serialized JSON array of that
list (with the matching decode outcome) yields exactly those strings in
their original order, with no_follow_up_needed false. -/
theorem parse_json_roundtrip (qs : List PyStr)
    (h : ∀ q ∈ qs, (pyStrip q).isEmpty = false) :
    FollowUpResponseParser.parse (Except.ok (PyJson.list (qs.map PyJson.str)))
      (dumpsStringList qs)
      = { questions := qs, no_follow_up_needed := false } := by
  unfold FollowUpResponseParser.parse
  rw [if_neg (by rw [sentinel_false_dumps qs]; exact Bool.false_ne_true)]
  dsimp only
  rw [filterMap_jsonStrNonBlank qs h]

/-- Witness for claim C8 (amended): one ordinary question string. -/
theorem parse_json_roundtrip_witness :
    FollowUpResponseParser.parse
      (Except.ok (PyJson.list [PyJson.str "What is your goal?".toList]))
      (dumpsStringList ["What is your goal?".toList])
      = { questions := ["What is your goal?".toList], no_follow_up_needed := false } := by
  have h := parse_json_roundtrip ["What is your goal?".toList] (by decide)
  simpa using h

/-- Counterexample to claim C5: the validator rejects the empty batch
even though every question in it (vacuously) is longer than 10
characters and ends with a question mark and the batch size is at most
3, so the claimed if-and-only-if characterization fails on the empty
batch. -/
theorem validate_empty_batch_rejected :
    validate_follow_up_questions [] = false ∧
    (∀ q ∈ ([] : List PyStr), 10 < q.length ∧ pyEndswith ['?'] q = true) ∧
    ([] : List PyStr).length ≤ 3 := by
  refine ⟨by decide, ?_, by decide⟩
  intro q hq
  exact absurd hq (List.not_mem_nil q)

/-- Claim C5 (amended): the strict batch validator passes a batch if and
only if the batch is non-empty, contains at most 3 questions, and every
question is strictly longer than 10 characters and ends with a question
mark. -/
theorem validate_follow_up_questions_iff (questions : List PyStr) :
    validate_follow_up_questions questions = true ↔
      questions ≠ [] ∧ questions.length ≤ 3 ∧
        ∀ q ∈ questions, 10 < q.length ∧ pyEndswith ['?'] q = true := by
  unfold validate_follow_up_questions
  by_cases hq : questions.isEmpty
  · rw [if_pos hq]
    rw [List.isEmpty_iff] at hq
    simp [hq]
  · rw [if_neg hq]
    rw [List.isEmpty_iff] at hq
    simp only [List.all_eq_true, Bool.and_eq_true, decide_eq_true_eq]
    constructor
    · intro h
      obtain ⟨q0, hq0⟩ := List.exists_mem_of_ne_nil questions hq
      exact ⟨hq, (h q0 hq0).2, fun q hmem => ⟨(h q hmem).1.1, (h q hmem).1.2⟩⟩
    · intro ⟨_, hlen, hall⟩ q hmem
      exact ⟨⟨(hall q hmem).1, (hall q hmem).2⟩, hlen⟩

/-- Counterexample to claim C6: a candidate whose lower-cased trimmed
form equals a previously asked question is nevertheless kept, because
the code compares lower-cased forms without trimming. -/
theorem filter_duplicates_no_trim_counterexample :
    pyLower (pyStrip " Pizza?".toList) = pyLower "pizza?".toList ∧
    filter_duplicate_questions [" Pizza?".toList]
        [{ follow_up_questions := some ["pizza?".toList] }]
      = [" Pizza?".toList] := by
  constructor <;> decide

/-- Claim C6 (amended): deduplication drops a candidate if and only if
its lower-cased form (with no trimming) exactly equals the lower-cased
form of some previously asked question, and the surviving candidates
appear in their original order (the result is a sublist of the input). -/
theorem filter_duplicate_questions_spec (new_questions : List PyStr)
    (conversation_history : List HistEntry) :
    (filter_duplicate_questions new_questions conversation_history).Sublist
        new_questions ∧
    ∀ q, q ∈ filter_duplicate_questions new_questions conversation_history ↔
      q ∈ new_questions ∧
        ∀ p ∈ previousQuestionsOf conversation_history, pyLower p ≠ pyLower q := by
  constructor
  · exact List.filter_sublist _
  · intro q
    unfold filter_duplicate_questions
    rw [List.mem_filter]
    simp

/-- Counterexample to claim C3: when the template strategy yields no
questions (validation fails) and the LLM fallback succeeds while
extracting no candidates, the terminal result has an empty question list
but confidence_score 0.7, not 0.0. -/
theorem generate_followup_empty_fallback_confidence :
    (generate_follow_up_questions_pipeline false
        (Except.ok "I think we have enough information to proceed".toList)).follow_up_questions
      = [] ∧
    (generate_follow_up_questions_pipeline false
        (Except.ok "I think we have enough information to proceed".toList)).confidence_score
      ≠ 0 := by
  constructor
  · decide
  · have hred : (generate_follow_up_questions_pipeline false
        (Except.ok "I think we have enough information to proceed".toList)).confidence_score
        = 7/10 := rfl
    rw [hred]
    norm_num

/-- Claim C3 (amended): every internal failure terminates in a returned
result object (the pipeline is total), with an empty question list and a
non-empty human-readable reasoning string; the confidence score is 0.0
when the fallback generation raised an error, but 0.7 when the fallback
succeeded while yielding no candidates. -/
theorem generate_follow_up_failure_modes (e response : PyStr) :
    (generate_follow_up_questions_pipeline false (Except.error e)
        = { follow_up_questions := [],
            reasoning := "LLM generation failed: ".toList ++ e,
            confidence_score := 0 }) ∧
    (llmResponseQuestions response = [] →
      generate_follow_up_questions_pipeline false (Except.ok response)
        = { follow_up_questions := [],
            reasoning := "LLM-generated follow-up questions".toList,
            confidence_score := 7/10 }) ∧
    ("LLM generation failed: ".toList ++ e ≠ ([] : PyStr)) ∧
    ("LLM-generated follow-up questions".toList ≠ ([] : PyStr)) := by
  refine ⟨rfl, ?_, ?_, by decide⟩
  · intro h
    have hred : generate_follow_up_questions_pipeline false (Except.ok response)
        = { follow_up_questions := llmResponseQuestions response,
            reasoning := "LLM-generated follow-up questions".toList,
            confidence_score := 7/10 } := rfl
    rw [hred, h]
  · intro hc
    rw [List.append_eq_nil] at hc
    exact absurd hc.1 (by decide)

/-- Witness for claim C3 (amended): a raised fallback error and a
fallback reply containing no question. -/
theorem generate_follow_up_failure_modes_witness :
    generate_follow_up_questions_pipeline false (Except.error "timeout".toList)
      = { follow_up_questions := [],
          reasoning := "LLM generation failed: ".toList ++ "timeout".toList,
          confidence_score := 0 } ∧
    generate_follow_up_questions_pipeline false (Except.ok "All good".toList)
      = { follow_up_questions := [],
          reasoning := "LLM-generated follow-up questions".toList,
          confidence_score := 7/10 } := by
  have h := generate_follow_up_failure_modes "timeout".toList "All good".toList
  exact ⟨h.1, h.2.1 (by decide)⟩

/-- Claim C9: parse_follow_up_response is total: for every input text
and every json.loads behavior respecting its contract (only
json.JSONDecodeError is raised), the parser returns a question list and
never propagates an exception. -/
theorem parse_follow_up_response_total (loads : PyStr → Except PyExc PyJson)
    (llm_response : PyStr) (hloads : ∀ s, loads s ≠ Except.error PyExc.other) :
    ∃ questions,
      parse_follow_up_response loads llm_response = Except.ok questions := by
  unfold parse_follow_up_response
  cases hspan : findJsonSpan llm_response with
  | none => exact ⟨_, rfl⟩
  | some span =>
    dsimp only
    cases hl : loads span with
    | error e =>
      cases e with
      | jsonDecodeError => exact ⟨_, rfl⟩
      | other => exact absurd hl (hloads span)
    | ok j =>
      cases j with
      | list items =>
        dsimp only
        split
        · exact ⟨_, rfl⟩
        · exact ⟨_, rfl⟩
      | str s => exact ⟨_, rfl⟩
      | num n => exact ⟨_, rfl⟩
      | boolean b => exact ⟨_, rfl⟩
      | null => exact ⟨_, rfl⟩
      | dict fields => exact ⟨_, rfl⟩

/-- Witness for claim C9: a numbered-list reply with json.loads always
raising a decode error. -/
theorem parse_follow_up_response_total_witness :
    ∃ questions,
      parse_follow_up_response (fun _ => Except.error PyExc.jsonDecodeError)
        "1. What is your risk appetite?".toList = Except.ok questions :=
  parse_follow_up_response_total (fun _ => Except.error PyExc.jsonDecodeError)
    "1. What is your risk appetite?".toList (by intro s h; simp at h)

/-- Claim C10: when the agent state holds no primary_agent_response key,
FollowUpAgent.process returns the state unchanged, for every generator
strategy and max_questions (so no strategy is invoked and no
follow_up_questions field is added). -/
theorem process_missing_primary_unchanged
    (generator_strategy : AgentStateDict → PyVal → Nat → List PyStr)
    (max_questions : Nat) (agent_state : AgentStateDict)
    (h : lookupKey agent_state primaryAgentResponseKey = none) :
    FollowUpAgent_process generator_strategy max_questions agent_state
      = agent_state := by
  unfold FollowUpAgent_process
  rw [h]

/-- Witness for claim C10: a state holding only a user query. -/
theorem process_missing_primary_unchanged_witness :
    FollowUpAgent_process (fun _ _ _ => []) 3
        [("user_query".toList, PyVal.str "hello".toList)]
      = [("user_query".toList, PyVal.str "hello".toList)] :=
  process_missing_primary_unchanged (fun _ _ _ => []) 3
    [("user_query".toList, PyVal.str "hello".toList)] rfl
